import Mathlib

/-!
The package dynamic-gpu-mount: health monitor, plugin service life cycle, namespace tool.

A shallow embedding of `nvidia.go`, `server.go` and `pkg/nsenter/nsenter.go`.

* Go pointers to devices are addresses (`Ptr`) into a store (`Heap`); the
  inventory never yields a nil device (it panics on every library error), so
  the store is total.
* A send on the unbuffered notification channel is recorded as an entry of an
  emission trace, in program order.
* Calls into the operating system, gRPC and NVML are inputs of the functions
  (their results are arguments), and the calls performed are recorded as a
  trace of `Effect`s.
* A Go panic is an explicit outcome.
-/

namespace DynamicGpuMount

/-! ## Data model (`nvidia.go`, lines 11-14, and the plugin API) -/

/-- Address of a `*Device`. -/
abbrev Ptr := Nat

namespace pluginapi

/-- Health string `pluginapi.Healthy`. -/
def Healthy : String := "Healthy"

/-- Health string `pluginapi.Unhealthy`. -/
def Unhealthy : String := "Unhealthy"

/-- The struct `pluginapi.Device`: id, health string, optional topology
(the NUMA node ids). -/
structure Device where
  ID : String
  Health : String
  Topology : Option (List Int)
  deriving DecidableEq, Repr

end pluginapi

/-- The struct `Device` of `nvidia.go`: an embedded `pluginapi.Device` and a path. -/
structure Device extends pluginapi.Device where
  Path : String
  deriving DecidableEq, Repr

/-- The store the device pointers point into. -/
abbrev Heap := Ptr → Device

namespace nvml

/-- Event type constant `nvml.XidCriticalError` (`nvmlEventTypeXidCriticalError`). -/
def XidCriticalError : Nat := 8

/-- The struct `nvml.Event`; the three pointer fields may be nil. -/
structure Event where
  UUID : Option String
  GpuInstanceId : Option Nat
  ComputeInstanceId : Option Nat
  Etype : Nat
  Edata : Nat
  deriving DecidableEq, Repr

/-- Result type of `nvml.ParseMigDeviceUUID`: `none` is a non-nil error,
`some (gpu, gi, ci)` the parsed identity. -/
abbrev MigParser := String → Option (String × Nat × Nat)

end nvml

/-! ## Health monitor (`nvidia.go`, lines 38-97) -/

/-- How one pass through the body of a loop ends. -/
inductive Next where
  | cont
  | stopped
  | panicked
  deriving DecidableEq, Repr

/-- Devices pushed onto the `unhealthy` channel, in order, and how the pass ended. -/
structure IterResult where
  emitted : List Ptr
  next : Next
  deriving DecidableEq, Repr

/-- Prepend one emission to the result of the rest of a loop. -/
def IterResult.push (p : Ptr) (r : IterResult) : IterResult :=
  { r with emitted := p :: r.emitted }

/-- Lines 83-88: the identity a device id resolves to. -/
def resolveIdentity (parse : nvml.MigParser) (id : String) : String × Nat × Nat :=
  match parse id with
  | some r => r
  | none => (id, 0xFFFFFFFF, 0xFFFFFFFF)

/-- Lines 82-94: the comparison loop over the devices, for an event whose
`UUID` points to `uuid`. The `&&` chain dereferences `GpuInstanceId` and
`ComputeInstanceId` left to right, only as far as needed; a nil dereference
panics, after the emissions already made. -/
def matchLoop (parse : nvml.MigParser) (heap : Heap) (uuid : String) (e : nvml.Event) :
    List Ptr → IterResult
  | [] => ⟨[], Next.cont⟩
  | dev :: rest =>
    let r := resolveIdentity parse (heap dev).ID
    if r.1 = uuid then
      match e.GpuInstanceId with
      | none => ⟨[], Next.panicked⟩
      | some egi =>
        if r.2.1 = egi then
          match e.ComputeInstanceId with
          | none => ⟨[], Next.panicked⟩
          | some eci =>
            if r.2.2 = eci then (matchLoop parse heap uuid e rest).push dev
            else matchLoop parse heap uuid e rest
        else matchLoop parse heap uuid e rest
    else matchLoop parse heap uuid e rest

/-- Lines 65-94: what the watch loop does with the pair `(e, err)` returned by
`nvml.WaitForEvent`; `err = none` is a nil error. -/
def classify (parse : nvml.MigParser) (heap : Heap) (devices : List Ptr)
    (e : nvml.Event) (err : Option String) : IterResult :=
  if err ≠ none ∧ e.Etype ≠ nvml.XidCriticalError then ⟨[], Next.cont⟩
  else if e.Edata = 31 ∨ e.Edata = 43 ∨ e.Edata = 45 then ⟨[], Next.cont⟩
  else
    match e.UUID with
    | none => ⟨devices, Next.cont⟩
    | some uuid =>
      if uuid.utf8ByteSize = 0 then ⟨devices, Next.cont⟩
      else matchLoop parse heap uuid e devices

/-- Lines 57-96: one iteration of the watch loop. `stopClosed` tells whether
the stop channel is closed when the `select` runs. -/
def watchIteration (parse : nvml.MigParser) (heap : Heap) (devices : List Ptr)
    (stopClosed : Bool) (e : nvml.Event) (err : Option String) : IterResult :=
  if stopClosed then ⟨[], Next.stopped⟩ else classify parse heap devices e err

/-- Go `strings.HasSuffix`. -/
def HasSuffix (s suffix : String) : Bool :=
  suffix.data.isSuffixOf s.data

/-- Lines 42-55: the subscription loop. `register gpu` is the result of
`nvml.RegisterEventForDevice` for that physical id (`none` is a nil error). -/
def subscribe (parse : nvml.MigParser) (register : String → Option String) (heap : Heap) :
    List Ptr → IterResult
  | [] => ⟨[], Next.cont⟩
  | dev :: rest =>
    let gpu := match parse (heap dev).ID with
      | some r => r.1
      | none => (heap dev).ID
    match register gpu with
    | none => subscribe parse register heap rest
    | some msg =>
      if HasSuffix msg "Not Supported" then (subscribe parse register heap rest).push dev
      else ⟨[], Next.panicked⟩

/-- One poll of the watch loop as the environment presents it. -/
structure Poll where
  stopClosed : Bool
  event : nvml.Event
  err : Option String
  deriving DecidableEq, Repr

/-- Lines 57-96 over a finite script of polls: the emissions of all
iterations, until the stop signal is seen, a panic, or the end of the script
(then the loop is still running: `Next.cont`). -/
def watchLoop (parse : nvml.MigParser) (heap : Heap) (devices : List Ptr) :
    List Poll → IterResult
  | [] => ⟨[], Next.cont⟩
  | p :: ps =>
    let r := watchIteration parse heap devices p.stopClosed p.event p.err
    match r.next with
    | Next.cont =>
      let r2 := watchLoop parse heap devices ps
      ⟨r.emitted ++ r2.emitted, r2.next⟩
    | _ => r

/-- The function `GpuDeviceManager.CheckHealth` over a script of polls. -/
def CheckHealth (parse : nvml.MigParser) (register : String → Option String) (heap : Heap)
    (devices : List Ptr) (polls : List Poll) : IterResult :=
  let r := subscribe parse register heap devices
  match r.next with
  | Next.cont =>
    let r2 := watchLoop parse heap devices polls
    ⟨r.emitted ++ r2.emitted, r2.next⟩
  | _ => r

/-! ## Plugin service (`server.go`) -/

/-- A Go channel value: its identity and whether it has been closed. -/
structure Chan where
  id : Nat
  closed : Bool
  deriving DecidableEq, Repr

/-- The struct `GpuDevicePlugin` (lines 16-25). `server` is the address of
the `grpc.Server`; `none` is nil, and the nil slice is `[]`. -/
structure GpuDevicePlugin where
  resourceName : String
  socket : String
  server : Option Nat
  cacheDevices : List Ptr
  health : Option Chan
  stop : Option Chan
  deriving DecidableEq, Repr

/-- An `error` value of the `os` package: its text and what `os.IsNotExist` says of it. -/
structure OsError where
  msg : String
  notExist : Bool
  deriving DecidableEq, Repr

/-- Calls that leave the process, in the order they are made. -/
inductive Effect where
  | removeFile (path : String)
  | listen (path : String)
  | registerServer (srv : Nat)
  | goAcceptLoop (srv : Nat)
  | dial (path : String)
  | connClose
  | registerRPC (version endpoint resourceName : String)
  | serverStop (srv : Nat)
  | closeChan (id : Nat)
  | goCheckHealth (stop : Option Chan) (devices : List Ptr) (health : Option Chan)
  deriving DecidableEq, Repr

/-- A call either returns a value or panics. -/
inductive Outcome (α : Type) where
  | ret (a : α)
  | panicked (msg : String)
  deriving DecidableEq, Repr

/-- The result of running a method: the struct afterwards, the calls made, the outcome. -/
structure Run (α : Type) where
  state : GpuDevicePlugin
  trace : List Effect
  out : Outcome α
  deriving DecidableEq, Repr

/-- A method with receiver `g *GpuDevicePlugin`. -/
def Go (α : Type) : Type := GpuDevicePlugin → Run α

/-- Return a value, touching nothing. -/
def Go.pure {α : Type} (a : α) : Go α := fun g => ⟨g, [], Outcome.ret a⟩

/-- Run `m`, and `f` on its value unless `m` panicked. -/
def Go.bind {α β : Type} (m : Go α) (f : α → Go β) : Go β := fun g =>
  let r := m g
  match r.out with
  | Outcome.ret a =>
    let r2 := f a r.state
    ⟨r2.state, r.trace ++ r2.trace, r2.out⟩
  | Outcome.panicked msg => ⟨r.state, r.trace, Outcome.panicked msg⟩

instance : Monad Go where
  pure := Go.pure
  bind := Go.bind

/-- Record one outside call. -/
def effect (e : Effect) : Go Unit := fun g => ⟨g, [e], Outcome.ret ()⟩

/-- Read the receiver. -/
def getG : Go GpuDevicePlugin := fun g => ⟨g, [], Outcome.ret g⟩

/-- Assign fields of the receiver. -/
def setG (f : GpuDevicePlugin → GpuDevicePlugin) : Go Unit := fun g => ⟨f g, [], Outcome.ret ()⟩

/-- A Go panic. -/
def goPanic {α : Type} (msg : String) : Go α := fun g => ⟨g, [], Outcome.panicked msg⟩

/-- The call `log.Panicf`: writes the message to the log, then panics with it. -/
def logPanicf (msg : String) : Go Unit := goPanic msg

/-- Constant `pluginapi.Version`. -/
def pluginapi.Version : String := "v1beta1"

/-- Constant `pluginapi.KubeletSocket`. -/
def pluginapi.KubeletSocket : String := "/var/lib/kubelet/device-plugins/kubelet.sock"

/-- Go `path.Base`. -/
def pathBase (p : String) : String :=
  if p = "" then "."
  else
    let stripped := p.data.reverse.dropWhile (fun c => c = '/')
    let last := (stripped.takeWhile (fun c => c ≠ '/')).reverse
    if last = [] then "/" else String.mk last

/-- What the outside world answers during `Start` and `Stop`.
`devices` is the result of `g.Devices()` (it panics when the library fails);
`newServer`, `newHealth`, `newStop` are the fresh objects of `initalize`;
an error field holds `none` for nil. -/
structure Env where
  devices : Outcome (List Ptr)
  newServer : Nat
  newHealth : Nat
  newStop : Nat
  listenErr : Option String
  dialErr : Option String
  kubeletDialErr : Option String
  registerErr : Option String
  removeErr : Option OsError
  deriving DecidableEq, Repr

/-- Lines 38-43, `initalize`. -/
def initalize (env : Env) : Go Unit := do
  match env.devices with
  | Outcome.panicked msg => goPanic msg
  | Outcome.ret devs =>
    setG (fun g => { g with cacheDevices := devs })
    setG (fun g => { g with server := some env.newServer })
    setG (fun g => { g with health := some ⟨env.newHealth, false⟩ })
    setG (fun g => { g with stop := some ⟨env.newStop, false⟩ })

/-- Go `close(ch)`. -/
def closeChan (ch : Option Chan) : Go Unit :=
  match ch with
  | none => goPanic "close of nil channel"
  | some c =>
    if c.closed then goPanic "close of closed channel"
    else effect (Effect.closeChan c.id)

/-- Lines 45-51, `cleanup`. -/
def cleanup : Go Unit := do
  let g ← getG
  closeChan g.stop
  setG (fun g => { g with cacheDevices := [] })
  setG (fun g => { g with server := none })
  setG (fun g => { g with health := none })
  setG (fun g => { g with stop := none })

/-- Lines 53-60, `dial`: `err` is what `grpc.Dial` returns. -/
def dial (unixSocketPath : String) (err : Option String) : Go (Option String) := do
  effect (Effect.dial unixSocketPath)
  return err

/-- How the accept loop of `Serve` ends: `server.Serve` returned nil on run
number `runs`, or `log.Fatalf` ended the process after `runs` runs with
`restartCount = restarts`, or the fuel of the model ran out. -/
inductive LoopEnd where
  | returned (runs : Nat)
  | fatal (runs restarts : Nat)
  | outOfFuel
  deriving DecidableEq, Repr

/-- Lines 72-89, the body of the goroutine of `Serve`. `serve i` is what the
`i`-th call (from 0) of `g.server.Serve(sock)` returns, `restartCount` the
local variable, `runs` the number of calls made so far. -/
def acceptLoop (serve : Nat → Option String) : Nat → Nat → Nat → LoopEnd
  | 0, _, _ => LoopEnd.outOfFuel
  | fuel + 1, restartCount, runs =>
    match serve runs with
    | none => LoopEnd.returned (runs + 1)
    | some _ =>
      if restartCount > 5 then LoopEnd.fatal (runs + 1) restartCount
      else acceptLoop serve fuel (restartCount + 1) (runs + 1)

/-- Lines 63-98, `Serve`; the goroutine is `acceptLoop`. -/
def Serve (env : Env) : Go (Option String) := do
  let g ← getG
  effect (Effect.removeFile g.socket)
  effect (Effect.listen g.socket)
  if env.listenErr ≠ none then
    return none
  match g.server with
  | none => goPanic "nil pointer dereference"
  | some srv =>
    effect (Effect.registerServer srv)
    effect (Effect.goAcceptLoop srv)
    let err ← dial g.socket env.dialErr
    if err ≠ none then
      return err
    effect Effect.connClose
    return none

/-- Lines 101-117, `Register`. -/
def Register (env : Env) : Go (Option String) := do
  let g ← getG
  let err ← dial pluginapi.KubeletSocket env.kubeletDialErr
  if err ≠ none then
    return err
  effect (Effect.registerRPC pluginapi.Version (pathBase g.socket) g.resourceName)
  effect Effect.connClose
  return env.registerErr

/-- Lines 119-130, `Stop`, for a non-nil receiver; `removeErr` is what
`os.Remove(g.socket)` returns. -/
def Stop (removeErr : Option OsError) : Go (Option String) := do
  let g ← getG
  match g.server with
  | none => return none
  | some srv =>
    effect (Effect.serverStop srv)
    effect (Effect.removeFile g.socket)
    match removeErr with
    | some err =>
      if ¬ err.notExist then
        return some err.msg
      cleanup
      return none
    | none =>
      cleanup
      return none

/-- Lines 132-155, `Start`. -/
def Start (env : Env) : Go (Option String) := do
  initalize env
  let err ← Serve env
  if err ≠ none then
    cleanup
    return err
  let err ← Register env
  if err ≠ none then
    logPanicf ("Could not register device plugin: " ++ err.getD "")
    let _ ← Stop env.removeErr
    return err
  let g ← getG
  logPanicf ("Register device plugin for \x27" ++ g.resourceName ++ "\x27 with kubelet")
  effect (Effect.goCheckHealth g.stop g.cacheDevices g.health)
  return none

/-- Lines 157-163, `apiDevices`: the embedded `pluginapi.Device` of every
cache entry as the store holds it when the list is sent. -/
def apiDevices (g : GpuDevicePlugin) (heap : Heap) : List pluginapi.Device :=
  g.cacheDevices.map (fun p => (heap p).toDevice)

/-- Which case of the `select` of `ListAndWatch` fires. -/
inductive Select where
  | stop
  | health (d : Ptr)
  deriving DecidableEq, Repr

/-- Line 186, `d.Health = pluginapi.Unhealthy`. -/
def markUnhealthy (heap : Heap) (d : Ptr) : Heap :=
  fun p => if p = d then { heap p with Health := pluginapi.Unhealthy } else heap p

/-- The store, the lists sent on the stream, and whether the call returned. -/
structure WatchState where
  heap : Heap
  sent : List (List pluginapi.Device)
  returned : Bool

/-- Lines 181-190: one pass of the `select` loop of `ListAndWatch`. -/
def listAndWatchStep (g : GpuDevicePlugin) (heap : Heap) : Select → WatchState
  | Select.stop => ⟨heap, [], true⟩
  | Select.health d =>
    let heap2 := markUnhealthy heap d
    ⟨heap2, [apiDevices g heap2], false⟩

/-- The loop of `ListAndWatch` over a script of `select` outcomes. -/
def listAndWatchLoop (g : GpuDevicePlugin) : Heap → List Select → WatchState
  | heap, [] => ⟨heap, [], false⟩
  | heap, ev :: evs =>
    let r := listAndWatchStep g heap ev
    if r.returned then r
    else
      let r2 := listAndWatchLoop g r.heap evs
      ⟨r2.heap, r.sent ++ r2.sent, r2.returned⟩

/-- Lines 177-191, `ListAndWatch`: the first send, then the loop. -/
def ListAndWatch (g : GpuDevicePlugin) (heap : Heap) (evs : List Select) : WatchState :=
  let r := listAndWatchLoop g heap evs
  ⟨r.heap, apiDevices g heap :: r.sent, r.returned⟩

/-! ## Namespace tool (`pkg/nsenter/nsenter.go`, lines 50-55) -/

/-- Go `strings.TrimLeft`: drops every leading code point contained in `cutset`. -/
def TrimLeft (s cutset : String) : String :=
  String.mk (s.data.dropWhile (fun c => cutset.data.contains c))

/-- Go `strings.TrimRight`. -/
def TrimRight (s cutset : String) : String :=
  String.mk (s.data.reverse.dropWhile (fun c => cutset.data.contains c)).reverse

/-- Go `strings.Trim`. -/
def Trim (s cutset : String) : String :=
  TrimRight (TrimLeft s cutset) cutset

/-- Go `strings.TrimPrefix`, the function that removes one leading copy of a string. -/
def TrimPrefix (s pre : String) : String :=
  if pre.data.isPrefixOf s.data then String.mk (s.data.drop pre.data.length) else s

/-- The fields of `v1.Pod` that are read: the container ids of `pod.Status.ContainerStatuses`. -/
structure Pod where
  ContainerStatuses : List String
  deriving DecidableEq, Repr

/-- The command line run, the value and the error returned. -/
structure HostPidResult where
  argv : List String
  pid : String
  err : Option String
  deriving DecidableEq, Repr

/-- Line 52: the container id handed to `docker inspect`; `none` when the
index `[0]` is out of range (a panic). -/
def containerId (pod : Pod) : Option String :=
  match pod.ContainerStatuses with
  | [] => none
  | cid :: _ => some (TrimLeft cid "docker://")

/-- Lines 50-55, `GetContainerHostPid`; `run argv` is the combined output and
the error of the command. -/
def GetContainerHostPid (run : List String → String × Option String) (pod : Pod) :
    Outcome HostPidResult :=
  match containerId pod with
  | none => Outcome.panicked "index out of range [0] with length 0"
  | some cid =>
    let argv := ["docker", "inspect", "-f", "\x7b\x7b.State.Pid\x7d\x7d", cid]
    let r := run argv
    Outcome.ret ⟨argv, Trim r.1 "\n", r.2⟩

/-! ## Fixtures used by the concrete checks -/

/-- A parser that accepts the single partitioned id `MIG-GPU-X/1/2`. -/
def sampleParse : nvml.MigParser :=
  fun id => if id = "MIG-GPU-X/1/2" then some ("GPU-X", 1, 2) else none

/-- A store with two whole devices `GPU-A` (address 1), `GPU-B` (address 2)
and one partition of `GPU-X` (every other address), all healthy. -/
def sampleHeap : Heap := fun p =>
  if p = 1 then ⟨⟨"GPU-A", pluginapi.Healthy, none⟩, "/dev/nvidia0"⟩
  else if p = 2 then ⟨⟨"GPU-B", pluginapi.Healthy, none⟩, "/dev/nvidia1"⟩
  else ⟨⟨"MIG-GPU-X/1/2", pluginapi.Healthy, none⟩, "/dev/nvidia2"⟩

/-- A fresh, not yet started instance for the resource `nvidia.com/gpu`. -/
def samplePlugin : GpuDevicePlugin :=
  ⟨"nvidia.com/gpu", "/var/lib/kubelet/device-plugins/gpu.sock", none, [], none, none⟩

/-- An instance as `initalize` leaves it: server 100, cache `[1, 2]`, open
channels 200 (health) and 300 (stop). -/
def startedPlugin : GpuDevicePlugin :=
  ⟨"nvidia.com/gpu", "/var/lib/kubelet/device-plugins/gpu.sock", some 100, [1, 2],
    some ⟨200, false⟩, some ⟨300, false⟩⟩

/-- A world in which every call succeeds: two devices, listen, both dials and
the registration return nil. -/
def envAllOk : Env :=
  ⟨Outcome.ret [1, 2], 100, 200, 300, none, none, none, none, none⟩

/-- The world of `envAllOk`, except that `net.Listen` fails. -/
def envListenFails : Env :=
  { envAllOk with listenErr := some "listen unix: bind: permission denied" }

/-- The world of `envAllOk`, except that the dial of the own socket times out. -/
def envDialFails : Env :=
  { envAllOk with dialErr := some "context deadline exceeded" }

/-- An `os.Remove` error other than "does not exist". -/
def removeDenied : OsError := ⟨"remove gpu.sock: operation not permitted", false⟩

/-! ## Auxiliary lemmas -/

theorem utf8ByteSize_go_pos (c : Char) (cs : List Char) :
    0 < String.utf8ByteSize.go (c :: cs) := by
  have h := Char.utf8Size_pos c
  simp only [String.utf8ByteSize.go]
  omega

theorem utf8ByteSize_ne_zero (s : String) (h : s ≠ "") : s.utf8ByteSize ≠ 0 := by
  cases s with
  | mk data =>
    cases data with
    | nil => exact absurd rfl h
    | cons c cs =>
      have hp := utf8ByteSize_go_pos c cs
      simp only [String.utf8ByteSize]
      omega

theorem matchLoop_eq_filter (parse : nvml.MigParser) (heap : Heap) (uuid : String)
    (e : nvml.Event) (gi ci : Nat) (hgi : e.GpuInstanceId = some gi)
    (hci : e.ComputeInstanceId = some ci) (devices : List Ptr) :
    matchLoop parse heap uuid e devices =
      ⟨devices.filter (fun p => decide (resolveIdentity parse (heap p).ID = (uuid, gi, ci))),
        Next.cont⟩ := by
  induction devices with
  | nil => simp [matchLoop]
  | cons dev rest ih =>
    rcases hr : resolveIdentity parse (heap dev).ID with ⟨a, b, c⟩
    simp only [matchLoop, hgi, hci, ih, hr, List.filter_cons, IterResult.push, Prod.mk.injEq]
    by_cases h1 : a = uuid <;> by_cases h2 : b = gi <;> by_cases h3 : c = ci <;> simp [h1, h2, h3]

theorem markUnhealthy_keeps_unhealthy (heap : Heap) (d p : Ptr)
    (h : (heap p).Health = pluginapi.Unhealthy) :
    (markUnhealthy heap d p).Health = pluginapi.Unhealthy := by
  by_cases hp : p = d
  · simp [markUnhealthy, hp]
  · simp [markUnhealthy, hp, h]

theorem listAndWatchLoop_keeps_unhealthy (g : GpuDevicePlugin) (evs : List Select) :
    ∀ (heap : Heap) (p : Ptr), (heap p).Health = pluginapi.Unhealthy →
      ((listAndWatchLoop g heap evs).heap p).Health = pluginapi.Unhealthy := by
  induction evs with
  | nil =>
    intro heap p h
    simpa [listAndWatchLoop] using h
  | cons ev rest ih =>
    intro heap p h
    cases ev with
    | stop => simpa [listAndWatchLoop, listAndWatchStep] using h
    | health d =>
      simp only [listAndWatchLoop, listAndWatchStep, Bool.false_eq_true, if_false]
      exact ih (markUnhealthy heap d) p (markUnhealthy_keeps_unhealthy heap d p h)

theorem acceptLoop_first_success (serve : Nat → Option String) (f k : Nat) (hk : k < 7)
    (hnone : serve k = none) (hbefore : ∀ i, i < k → serve i ≠ none) :
    acceptLoop serve (f + 1 + 1 + 1 + 1 + 1 + 1 + 1) 0 0 = LoopEnd.returned (k + 1) := by
  have hs : ∀ i, i < k → ∃ e, serve i = some e :=
    fun i hi => Option.ne_none_iff_exists'.mp (hbefore i hi)
  interval_cases k
  · simp [acceptLoop, hnone]
  · obtain ⟨e0, h0⟩ := hs 0 (by omega)
    simp [acceptLoop, hnone, h0]
  · obtain ⟨e0, h0⟩ := hs 0 (by omega)
    obtain ⟨e1, h1⟩ := hs 1 (by omega)
    simp [acceptLoop, hnone, h0, h1]
  · obtain ⟨e0, h0⟩ := hs 0 (by omega)
    obtain ⟨e1, h1⟩ := hs 1 (by omega)
    obtain ⟨e2, h2⟩ := hs 2 (by omega)
    simp [acceptLoop, hnone, h0, h1, h2]
  · obtain ⟨e0, h0⟩ := hs 0 (by omega)
    obtain ⟨e1, h1⟩ := hs 1 (by omega)
    obtain ⟨e2, h2⟩ := hs 2 (by omega)
    obtain ⟨e3, h3⟩ := hs 3 (by omega)
    simp [acceptLoop, hnone, h0, h1, h2, h3]
  · obtain ⟨e0, h0⟩ := hs 0 (by omega)
    obtain ⟨e1, h1⟩ := hs 1 (by omega)
    obtain ⟨e2, h2⟩ := hs 2 (by omega)
    obtain ⟨e3, h3⟩ := hs 3 (by omega)
    obtain ⟨e4, h4⟩ := hs 4 (by omega)
    simp [acceptLoop, hnone, h0, h1, h2, h3, h4]
  · obtain ⟨e0, h0⟩ := hs 0 (by omega)
    obtain ⟨e1, h1⟩ := hs 1 (by omega)
    obtain ⟨e2, h2⟩ := hs 2 (by omega)
    obtain ⟨e3, h3⟩ := hs 3 (by omega)
    obtain ⟨e4, h4⟩ := hs 4 (by omega)
    obtain ⟨e5, h5⟩ := hs 5 (by omega)
    simp [acceptLoop, hnone, h0, h1, h2, h3, h4, h5]

theorem matchLoop_ignores_kind (parse : nvml.MigParser) (heap : Heap) (uuid : String)
    (e : nvml.Event) (k : Nat) (devices : List Ptr) :
    matchLoop parse heap uuid { e with Etype := k } devices
      = matchLoop parse heap uuid e devices := by
  induction devices with
  | nil => simp [matchLoop]
  | cons dev rest ih => simp only [matchLoop, ih]

/-! ## Health monitor: event classification -/

/-- C2: for a critical-fault event whose code is none of 31, 43, 45 and that
carries a non-empty identity `uuid` with both partition indices `gi`, `ci`,
one classification step emits exactly the devices, in list order, whose
resolved identity is `(uuid, gi, ci)` and goes on with the loop; the resolved
identity of an id is its parsed identity, or `(id, 0xFFFFFFFF, 0xFFFFFFFF)`
when parsing fails. Nothing is emitted when no device matches, and a device
whose id does not parse is emitted for an event reporting that id with both
indices at the sentinel. -/
theorem classify_emits_exactly_matching (parse : nvml.MigParser) (heap : Heap)
    (devices : List Ptr) (e : nvml.Event) (err : Option String) (uuid : String) (gi ci : Nat)
    (hkind : e.Etype = nvml.XidCriticalError)
    (hcode : e.Edata ≠ 31 ∧ e.Edata ≠ 43 ∧ e.Edata ≠ 45)
    (huuid : e.UUID = some uuid) (hne : uuid ≠ "")
    (hgi : e.GpuInstanceId = some gi) (hci : e.ComputeInstanceId = some ci) :
    classify parse heap devices e err =
        ⟨devices.filter (fun p => decide (resolveIdentity parse (heap p).ID = (uuid, gi, ci))),
          Next.cont⟩
      ∧ (∀ id r, parse id = some r → resolveIdentity parse id = r)
      ∧ (∀ id, parse id = none → resolveIdentity parse id = (id, 0xFFFFFFFF, 0xFFFFFFFF))
      ∧ ((∀ p ∈ devices, resolveIdentity parse (heap p).ID ≠ (uuid, gi, ci)) →
          (classify parse heap devices e err).emitted = [])
      ∧ (∀ p ∈ devices, parse (heap p).ID = none → uuid = (heap p).ID →
          gi = 0xFFFFFFFF → ci = 0xFFFFFFFF →
          p ∈ (classify parse heap devices e err).emitted) := by
  have hsz := utf8ByteSize_ne_zero uuid hne
  have hmain : classify parse heap devices e err =
      ⟨devices.filter (fun p => decide (resolveIdentity parse (heap p).ID = (uuid, gi, ci))),
        Next.cont⟩ := by
    obtain ⟨h31, h43, h45⟩ := hcode
    simp only [classify, hkind, huuid]
    simp [h31, h43, h45, hsz, matchLoop_eq_filter parse heap uuid e gi ci hgi hci]
  refine ⟨hmain, ?_, ?_, ?_, ?_⟩
  · intro id r hr
    simp [resolveIdentity, hr]
  · intro id hr
    simp [resolveIdentity, hr]
  · intro hnone
    rw [hmain]
    simp only [List.filter_eq_nil_iff, decide_eq_true_eq]
    exact hnone
  · intro p hp hparse hid hg hc
    rw [hmain]
    simp only [List.mem_filter, decide_eq_true_eq]
    refine ⟨hp, ?_⟩
    simp [resolveIdentity, hparse, hid, hg, hc]

/-- C2, at a concrete input: with devices `GPU-A`, `GPU-B` and the partition
`MIG-GPU-X/1/2`, an event with code 79 for `(GPU-A, sentinel, sentinel)`
emits the first device only. -/
theorem classify_emits_exactly_matching_witness :
    (classify sampleParse sampleHeap [1, 2, 3]
        ⟨some "GPU-A", some 0xFFFFFFFF, some 0xFFFFFFFF, nvml.XidCriticalError, 79⟩ none).emitted
      = [1] := by
  have h := (classify_emits_exactly_matching sampleParse sampleHeap [1, 2, 3]
    ⟨some "GPU-A", some 0xFFFFFFFF, some 0xFFFFFFFF, nvml.XidCriticalError, 79⟩ none
    "GPU-A" 0xFFFFFFFF 0xFFFFFFFF rfl (by decide) rfl (by decide) rfl rfl).1
  rw [h]
  decide

/-- C3: for a critical-fault event whose code is none of 31, 43, 45 and whose
identity is absent or empty, one classification step emits the whole device
list, every entry once and in list order, and goes on with the loop; so for
the empty list, a one-element list and any longer list. -/
theorem classify_global_fault_emits_all (parse : nvml.MigParser) (heap : Heap)
    (devices : List Ptr) (e : nvml.Event) (err : Option String)
    (hkind : e.Etype = nvml.XidCriticalError)
    (hcode : e.Edata ≠ 31 ∧ e.Edata ≠ 43 ∧ e.Edata ≠ 45)
    (huuid : e.UUID = none ∨ e.UUID = some "") :
    classify parse heap devices e err = ⟨devices, Next.cont⟩
      ∧ (classify parse heap devices e err).emitted.length = devices.length
      ∧ (∀ i (h : i < devices.length),
          (classify parse heap devices e err).emitted.get? i = some (devices.get ⟨i, h⟩)) := by
  have hmain : classify parse heap devices e err = ⟨devices, Next.cont⟩ := by
    obtain ⟨h31, h43, h45⟩ := hcode
    rcases huuid with h | h
    · simp [classify, hkind, h, h31, h43, h45]
    · simp [classify, hkind, h, h31, h43, h45, String.utf8ByteSize, String.utf8ByteSize.go]
  refine ⟨hmain, ?_, ?_⟩
  · rw [hmain]
  · intro i h
    rw [hmain]
    simp [List.get?_eq_get h]

/-- C3, at concrete inputs: an event with code 79 and no identity emits the
list `[1, 2, 3]` as it is, and an event with the empty identity emits `[]`
for the empty list. -/
theorem classify_global_fault_emits_all_witness :
    classify sampleParse sampleHeap [1, 2, 3] ⟨none, none, none, nvml.XidCriticalError, 79⟩ none
        = ⟨[1, 2, 3], Next.cont⟩
      ∧ classify sampleParse sampleHeap [] ⟨some "", none, none, nvml.XidCriticalError, 79⟩ none
        = ⟨[], Next.cont⟩ :=
  ⟨(classify_global_fault_emits_all sampleParse sampleHeap [1, 2, 3]
      ⟨none, none, none, nvml.XidCriticalError, 79⟩ none rfl (by decide) (Or.inl rfl)).1,
   (classify_global_fault_emits_all sampleParse sampleHeap []
      ⟨some "", none, none, nvml.XidCriticalError, 79⟩ none rfl (by decide) (Or.inr rfl)).1⟩

/-- C4: for an event whose code is 31, 43 or 45, whatever its kind, its
identity and the error of the wait, one classification step emits no device
and goes on with the loop. -/
theorem classify_benign_code_emits_nothing (parse : nvml.MigParser) (heap : Heap)
    (devices : List Ptr) (e : nvml.Event) (err : Option String)
    (hcode : e.Edata = 31 ∨ e.Edata = 43 ∨ e.Edata = 45) :
    classify parse heap devices e err = ⟨[], Next.cont⟩ := by
  unfold classify
  by_cases h : err ≠ none ∧ e.Etype ≠ nvml.XidCriticalError
  · rw [if_pos h]
  · rw [if_neg h, if_pos hcode]

/-- C4, at a concrete input: code 43 reported for the identity of a device
of the list emits nothing. -/
theorem classify_benign_code_emits_nothing_witness :
    classify sampleParse sampleHeap [1, 2, 3]
        ⟨some "GPU-A", some 0xFFFFFFFF, some 0xFFFFFFFF, nvml.XidCriticalError, 43⟩ none
      = ⟨[], Next.cont⟩ :=
  classify_benign_code_emits_nothing sampleParse sampleHeap [1, 2, 3]
    ⟨some "GPU-A", some 0xFFFFFFFF, some 0xFFFFFFFF, nvml.XidCriticalError, 43⟩ none
    (Or.inr (Or.inl rfl))

/-- C8, the code at the failing input and in general: an event of kind 0
(not the critical-fault kind) delivered with a nil error, code 79 and no
identity makes one iteration of the watch loop emit every device, where the
claim has it emit none. In general the guard of line 65 looks at the kind
only when the wait reported an error: with a nil error an event of any kind
is classified exactly as the critical-fault event with the same code and
identity would be (the messages of lines 75 and 91 name it
`XidCriticalError` all the same), and with an error the event is dropped
when its kind is not critical-fault and classified as with a nil error when
it is. -/
theorem watchIteration_other_kind_nil_error_classified :
    (⟨none, none, none, 0, 79⟩ : nvml.Event).Etype ≠ nvml.XidCriticalError
      ∧ watchIteration sampleParse sampleHeap [1, 2] false ⟨none, none, none, 0, 79⟩ none
          = ⟨[1, 2], Next.cont⟩
      ∧ watchIteration sampleParse sampleHeap [1, 2] false
          ⟨some "GPU-B", some 0xFFFFFFFF, some 0xFFFFFFFF, 0, 79⟩ none
          = ⟨[2], Next.cont⟩
      ∧ watchIteration sampleParse sampleHeap [1, 2] false ⟨none, none, none, 0, 79⟩
          (some "Timeout") = ⟨[], Next.cont⟩
      ∧ watchIteration sampleParse sampleHeap [1, 2] false
          ⟨none, none, none, nvml.XidCriticalError, 79⟩ (some "Timeout") = ⟨[1, 2], Next.cont⟩
      ∧ (∀ (parse : nvml.MigParser) (heap : Heap) (devices : List Ptr) (e : nvml.Event),
          watchIteration parse heap devices false e none =
            watchIteration parse heap devices false
              { e with Etype := nvml.XidCriticalError } none)
      ∧ (∀ (parse : nvml.MigParser) (heap : Heap) (devices : List Ptr) (e : nvml.Event)
          (msg : String),
          watchIteration parse heap devices false e (some msg) =
            if e.Etype = nvml.XidCriticalError then
              watchIteration parse heap devices false e none
            else ⟨[], Next.cont⟩) := by
  refine ⟨by decide, by decide, by decide, by decide, by decide, ?_, ?_⟩
  · intro parse heap devices e
    simp [watchIteration, classify, matchLoop_ignores_kind]
  · intro parse heap devices e msg
    by_cases hk : e.Etype = nvml.XidCriticalError
    · simp [watchIteration, classify, hk]
    · simp [watchIteration, classify, hk]

/-! ## Plugin service: `ListAndWatch` -/

/-- C5: when `ListAndWatch` drains a device `d` of the cache from the
notification channel, afterwards the health of `d` is `Unhealthy`, every
other device is unchanged, id, path and topology of every device are
unchanged, a device that was `Unhealthy` stays so (also over any whole run of
`ListAndWatch`), and the one list sent is the whole cache in cache order as
the store then holds it (the entry of `d` being `Unhealthy`); with cache `[a, b]`, `b` healthy and `a` drained, the
list sent is `[a: Unhealthy, b: Healthy]`. -/
theorem listAndWatch_drain_marks_only_drained (g : GpuDevicePlugin) (heap : Heap) (d : Ptr)
    (hd : d ∈ g.cacheDevices) :
    ((listAndWatchStep g heap (Select.health d)).heap d).Health = pluginapi.Unhealthy
      ∧ (∀ p, p ≠ d → (listAndWatchStep g heap (Select.health d)).heap p = heap p)
      ∧ (∀ p, ((listAndWatchStep g heap (Select.health d)).heap p).ID = (heap p).ID
          ∧ ((listAndWatchStep g heap (Select.health d)).heap p).Path = (heap p).Path
          ∧ ((listAndWatchStep g heap (Select.health d)).heap p).Topology = (heap p).Topology)
      ∧ (∀ p, (heap p).Health = pluginapi.Unhealthy →
          ((listAndWatchStep g heap (Select.health d)).heap p).Health = pluginapi.Unhealthy)
      ∧ (listAndWatchStep g heap (Select.health d)).sent =
          [g.cacheDevices.map
            (fun p => ((listAndWatchStep g heap (Select.health d)).heap p).toDevice)]
      ∧ (⟨(heap d).ID, pluginapi.Unhealthy, (heap d).Topology⟩ : pluginapi.Device) ∈
          ((listAndWatchStep g heap (Select.health d)).sent.head?).getD []
      ∧ (listAndWatchStep g heap (Select.health d)).returned = false
      ∧ (∀ evs p, (heap p).Health = pluginapi.Unhealthy →
          ((ListAndWatch g heap evs).heap p).Health = pluginapi.Unhealthy)
      ∧ (∀ b, g.cacheDevices = [d, b] → d ≠ b → (heap b).Health = pluginapi.Healthy →
          (listAndWatchStep g heap (Select.health d)).sent =
            [[⟨(heap d).ID, pluginapi.Unhealthy, (heap d).Topology⟩,
              ⟨(heap b).ID, pluginapi.Healthy, (heap b).Topology⟩]]) := by
  refine ⟨?_, ?_, ?_, ?_, ?_, ?_, ?_, ?_, ?_⟩
  · simp [listAndWatchStep, markUnhealthy]
  · intro p hp
    simp [listAndWatchStep, markUnhealthy, hp]
  · intro p
    by_cases hp : p = d <;> simp [listAndWatchStep, markUnhealthy, hp]
  · intro p hU
    by_cases hp : p = d
    · simp [listAndWatchStep, markUnhealthy, hp]
    · simp [listAndWatchStep, markUnhealthy, hp, hU]
  · simp [listAndWatchStep, apiDevices]
  · simp only [listAndWatchStep, apiDevices, List.head?_cons, Option.getD_some, List.mem_map]
    exact ⟨d, hd, by simp [markUnhealthy]⟩
  · simp [listAndWatchStep]
  · intro evs p hU
    exact listAndWatchLoop_keeps_unhealthy g evs heap p hU
  · intro b hcache hne hb
    have hne2 : b ≠ d := fun h => hne h.symm
    have e1 : (markUnhealthy heap d d).toDevice =
        ⟨(heap d).ID, pluginapi.Unhealthy, (heap d).Topology⟩ := by
      simp [markUnhealthy]
    have e2 : (markUnhealthy heap d b).toDevice =
        ⟨(heap b).ID, pluginapi.Healthy, (heap b).Topology⟩ := by
      simp only [markUnhealthy, if_neg hne2]
      rw [← hb]
    simp only [listAndWatchStep, apiDevices, hcache, List.map, e1, e2]

/-- C5, at the concrete scenario: cache `{A, B}` at addresses 1 and 2, both
healthy; draining `A` sends `{A: Unhealthy, B: Healthy}`. -/
theorem listAndWatch_drain_marks_only_drained_witness :
    (listAndWatchStep startedPlugin sampleHeap (Select.health 1)).sent =
      [[⟨"GPU-A", "Unhealthy", none⟩, ⟨"GPU-B", "Healthy", none⟩]] :=
  (listAndWatch_drain_marks_only_drained startedPlugin sampleHeap 1
    (by decide)).2.2.2.2.2.2.2.2 2 rfl (by decide) rfl

/-! ## Plugin service: `Stop` -/

/-- C6, as stated, fails: on a started instance whose socket file cannot be
removed (an error other than "does not exist"), the first `Stop` returns that
error before `cleanup`, and the second `Stop` stops the server and tries the
removal again, returning the error again. -/
theorem stop_twice_after_failed_removal_repeats :
    (Stop (some removeDenied) startedPlugin).out
        = Outcome.ret (some "remove gpu.sock: operation not permitted")
      ∧ (Stop (some removeDenied) (Stop (some removeDenied) startedPlugin).state).trace
        = [Effect.serverStop 100, Effect.removeFile "/var/lib/kubelet/device-plugins/gpu.sock"]
      ∧ (Stop (some removeDenied) (Stop (some removeDenied) startedPlugin).state).out
        = Outcome.ret (some "remove gpu.sock: operation not permitted") := by
  decide

/-- C6, amended: on a started instance (server set, shutdown channel open) on
which a first `Stop` returns no error, that first call stops the server,
removes the socket, closes the shutdown channel and releases the state, and a
second `Stop`, whatever the file system answers, makes no call at all,
returns no error and leaves the state as the first call left it. -/
theorem stop_twice_second_is_noop (g : GpuDevicePlugin) (srv : Nat) (c : Chan)
    (r1 r2 : Option OsError)
    (hsrv : g.server = some srv) (hstop : g.stop = some c) (hopen : c.closed = false)
    (hfirst : (Stop r1 g).out = Outcome.ret none) :
    Stop r2 (Stop r1 g).state = ⟨(Stop r1 g).state, [], Outcome.ret none⟩
      ∧ (Stop r1 g).trace
          = [Effect.serverStop srv, Effect.removeFile g.socket, Effect.closeChan c.id]
      ∧ (Stop r1 g).state
          = { g with cacheDevices := [], server := none, health := none, stop := none } := by
  rcases r1 with _ | ⟨msg, ne⟩
  · have h1 : Stop none g =
        ⟨{ g with cacheDevices := [], server := none, health := none, stop := none },
          [Effect.serverStop srv, Effect.removeFile g.socket, Effect.closeChan c.id],
          Outcome.ret none⟩ := by
      simp [Stop, cleanup, closeChan, bind, Go.bind, pure, Go.pure, getG, setG, effect,
        hsrv, hstop, hopen]
    rw [h1]
    exact ⟨rfl, rfl, rfl⟩
  · cases ne with
    | false =>
      exfalso
      simp [Stop, bind, Go.bind, pure, Go.pure, getG, effect, hsrv] at hfirst
    | true =>
      have h1 : Stop (some ⟨msg, true⟩) g =
          ⟨{ g with cacheDevices := [], server := none, health := none, stop := none },
            [Effect.serverStop srv, Effect.removeFile g.socket, Effect.closeChan c.id],
            Outcome.ret none⟩ := by
        simp [Stop, cleanup, closeChan, bind, Go.bind, pure, Go.pure, getG, setG, effect,
          hsrv, hstop, hopen]
      rw [h1]
      exact ⟨rfl, rfl, rfl⟩

/-- C6, amended, at a concrete input: the socket is removed at the first
call and found absent at the second. -/
theorem stop_twice_second_is_noop_witness :
    Stop (some ⟨"no such file or directory", true⟩) (Stop none startedPlugin).state
      = ⟨samplePlugin, [], Outcome.ret none⟩ :=
  (stop_twice_second_is_noop startedPlugin 100 ⟨300, false⟩ none
    (some ⟨"no such file or directory", true⟩) rfl rfl rfl (by decide)).1

/-! ## Plugin service: the accept loop of `Serve` -/

/-- C9, as stated, fails: when every run of the accept loop fails, the
process is ended after 7 runs, with `restartCount = 6`, not after 6 runs. -/
theorem acceptLoop_always_failing_runs_seven_times :
    acceptLoop (fun _ => some "accept failed") 6 0 0 = LoopEnd.outOfFuel
      ∧ acceptLoop (fun _ => some "accept failed") 7 0 0 = LoopEnd.fatal 7 6
      ∧ acceptLoop (fun i => if i = 6 then none else some "accept failed") 7 0 0
          = LoopEnd.returned 7 := by
  decide

/-- C9, amended: with fuel for 7 runs the accept loop always ends; if every
run fails, the loop is restarted exactly 6 times (7 runs in all) before the
process is ended; if one of the first 7 runs is the first to return without
error, the loop ends at that run and the process goes on. -/
theorem acceptLoop_six_restarts (serve : Nat → Option String) (fuel : Nat) (hfuel : 7 ≤ fuel) :
    acceptLoop serve fuel 0 0 ≠ LoopEnd.outOfFuel
      ∧ ((∀ i, serve i ≠ none) → acceptLoop serve fuel 0 0 = LoopEnd.fatal 7 6)
      ∧ (∀ k, k < 7 → serve k = none → (∀ i, i < k → serve i ≠ none) →
          acceptLoop serve fuel 0 0 = LoopEnd.returned (k + 1))
      ∧ ((∃ k, k < 7 ∧ serve k = none) →
          ∃ j, j < 7 ∧ acceptLoop serve fuel 0 0 = LoopEnd.returned (j + 1)) := by
  obtain ⟨f, rfl⟩ := Nat.exists_eq_add_of_le hfuel
  have hshape : 7 + f = f + 1 + 1 + 1 + 1 + 1 + 1 + 1 := by omega
  rw [hshape]
  refine ⟨?_, ?_, ?_, ?_⟩
  · rcases h0 : serve 0 with _ | e0 <;> rcases h1 : serve 1 with _ | e1 <;>
      rcases h2 : serve 2 with _ | e2 <;> rcases h3 : serve 3 with _ | e3 <;>
      rcases h4 : serve 4 with _ | e4 <;> rcases h5 : serve 5 with _ | e5 <;>
      rcases h6 : serve 6 with _ | e6 <;>
      simp [acceptLoop, h0, h1, h2, h3, h4, h5, h6]
  · intro hall
    obtain ⟨e0, h0⟩ := Option.ne_none_iff_exists'.mp (hall 0)
    obtain ⟨e1, h1⟩ := Option.ne_none_iff_exists'.mp (hall 1)
    obtain ⟨e2, h2⟩ := Option.ne_none_iff_exists'.mp (hall 2)
    obtain ⟨e3, h3⟩ := Option.ne_none_iff_exists'.mp (hall 3)
    obtain ⟨e4, h4⟩ := Option.ne_none_iff_exists'.mp (hall 4)
    obtain ⟨e5, h5⟩ := Option.ne_none_iff_exists'.mp (hall 5)
    obtain ⟨e6, h6⟩ := Option.ne_none_iff_exists'.mp (hall 6)
    simp [acceptLoop, h0, h1, h2, h3, h4, h5, h6]
  · intro k hk hnone hbefore
    exact acceptLoop_first_success serve f k hk hnone hbefore
  · rintro ⟨k, hk, hnone⟩
    have hex : ∃ n, serve n = none := ⟨k, hnone⟩
    have hle : Nat.find hex ≤ k := Nat.find_min' hex hnone
    refine ⟨Nat.find hex, by omega, ?_⟩
    exact acceptLoop_first_success serve f (Nat.find hex) (by omega) (Nat.find_spec hex)
      (fun i hi => Nat.find_min hex hi)

/-- C9, amended, at a concrete input: all runs fail, fuel 10. -/
theorem acceptLoop_six_restarts_witness :
    acceptLoop (fun _ => some "accept failed") 10 0 0 = LoopEnd.fatal 7 6 :=
  (acceptLoop_six_restarts (fun _ => some "accept failed") 10 (by decide)).2.1
    (fun _ => by simp)

/-! ## Plugin service: `Start` and `Serve` -/

/-- C1, the code at the failing input and in general: when the devices are
enumerated and listen, both dials and the registration succeed, `Start`
keeps the initialized state but panics in `log.Panicf` right after the
registration, so it returns nothing and never starts `CheckHealth`; and for
no answer of the outside world does `Start` return nil or start
`CheckHealth`. -/
theorem Start_panics_after_successful_registration :
    Start envAllOk samplePlugin =
        ⟨startedPlugin,
          [Effect.removeFile "/var/lib/kubelet/device-plugins/gpu.sock",
           Effect.listen "/var/lib/kubelet/device-plugins/gpu.sock",
           Effect.registerServer 100, Effect.goAcceptLoop 100,
           Effect.dial "/var/lib/kubelet/device-plugins/gpu.sock", Effect.connClose,
           Effect.dial "/var/lib/kubelet/device-plugins/kubelet.sock",
           Effect.registerRPC "v1beta1" "gpu.sock" "nvidia.com/gpu", Effect.connClose],
          Outcome.panicked "Register device plugin for \x27nvidia.com/gpu\x27 with kubelet"⟩
      ∧ (∀ (env : Env) (g : GpuDevicePlugin), (Start env g).out ≠ Outcome.ret none)
      ∧ (∀ (env : Env) (g : GpuDevicePlugin) (a : Option Chan) (b : List Ptr) (c : Option Chan),
          Effect.goCheckHealth a b c ∉ (Start env g).trace) := by
  refine ⟨by decide, ?_, ?_⟩
  · intro env g
    rcases env with ⟨devs, ns, nh, nt, le, de, ke, re, rm⟩
    rcases devs with devs | m <;> rcases le with _ | le <;> rcases de with _ | de <;>
      rcases ke with _ | ke <;> rcases re with _ | re <;>
      simp [Start, initalize, Serve, Register, Stop, cleanup, closeChan, dial, logPanicf,
        goPanic, bind, Go.bind, pure, Go.pure, getG, setG, effect]
  · intro env g a b c
    rcases env with ⟨devs, ns, nh, nt, le, de, ke, re, rm⟩
    rcases devs with devs | m <;> rcases le with _ | le <;> rcases de with _ | de <;>
      rcases ke with _ | ke <;> rcases re with _ | re <;>
      simp [Start, initalize, Serve, Register, Stop, cleanup, closeChan, dial, logPanicf,
        goPanic, bind, Go.bind, pure, Go.pure, getG, setG, effect]

/-- C7, the code at the failing input and in general: whenever `net.Listen`
fails, `Serve` returns nil after the removal and the listen attempt, and
`Start` returns nothing at all, error or nil; at the failing input `Start`
goes on to the registration with the state still held, and ends in the
panic after the registration; whereas a failed dial of the own socket makes
`Start` release the state and return the error without registering. -/
theorem Serve_returns_nil_when_listen_fails :
    (∀ (env : Env) (g : GpuDevicePlugin) (msg : String),
        Serve { env with listenErr := some msg } g
          = ⟨g, [Effect.removeFile g.socket, Effect.listen g.socket], Outcome.ret none⟩)
      ∧ (∀ (env : Env) (g : GpuDevicePlugin) (msg : String) (r : Option String),
          (Start { env with listenErr := some msg } g).out ≠ Outcome.ret r)
      ∧ Start envListenFails samplePlugin =
        ⟨startedPlugin,
          [Effect.removeFile "/var/lib/kubelet/device-plugins/gpu.sock",
           Effect.listen "/var/lib/kubelet/device-plugins/gpu.sock",
           Effect.dial "/var/lib/kubelet/device-plugins/kubelet.sock",
           Effect.registerRPC "v1beta1" "gpu.sock" "nvidia.com/gpu", Effect.connClose],
          Outcome.panicked "Register device plugin for \x27nvidia.com/gpu\x27 with kubelet"⟩
      ∧ Start envDialFails samplePlugin =
        ⟨samplePlugin,
          [Effect.removeFile "/var/lib/kubelet/device-plugins/gpu.sock",
           Effect.listen "/var/lib/kubelet/device-plugins/gpu.sock",
           Effect.registerServer 100, Effect.goAcceptLoop 100,
           Effect.dial "/var/lib/kubelet/device-plugins/gpu.sock", Effect.closeChan 300],
          Outcome.ret (some "context deadline exceeded")⟩ := by
  refine ⟨?_, ?_, by decide, by decide⟩
  · intro env g msg
    simp [Serve, bind, Go.bind, pure, Go.pure, getG, effect]
  · intro env g msg r
    rcases env with ⟨devs, ns, nh, nt, le, de, ke, re, rm⟩
    rcases devs with devs | m <;> rcases ke with _ | ke <;> rcases re with _ | re <;>
      simp [Start, initalize, Serve, Register, Stop, cleanup, closeChan, dial, logPanicf,
        goPanic, bind, Go.bind, pure, Go.pure, getG, setG, effect]

/-! ## Namespace tool -/

/-- C10, the code at the failing input: for the container id
`docker://decade0123456789`, whose hexadecimal id begins with `d`, `e`, `c`
(characters of the cutset), the id handed to `docker inspect` is
`ade0123456789`: three characters of the id are dropped with the scheme,
where removing the leading `docker://` alone gives `decade0123456789`. -/
theorem GetContainerHostPid_drops_leading_hex_digits :
    containerId ⟨["docker://decade0123456789"]⟩ = some "ade0123456789"
      ∧ GetContainerHostPid (fun _ => ("4242\n", none)) ⟨["docker://decade0123456789"]⟩
          = Outcome.ret
              ⟨["docker", "inspect", "-f", "\x7b\x7b.State.Pid\x7d\x7d", "ade0123456789"],
                "4242", none⟩
      ∧ TrimPrefix "docker://decade0123456789" "docker://" = "decade0123456789" := by
  decide

end DynamicGpuMount
